import Mathlib

/-!
Shallow embedding of `src/contracts/RentalEscrow.sol` (contract `RentalEscrow`).

Modelling conventions:
- Addresses are `Nat`, with `0` standing for `address(0)`.
- `uint256` amounts and timestamps are `Nat`.  Solidity `^0.8` arithmetic
  reverts on overflow rather than wrapping, so wherever the contract does not
  revert its arithmetic agrees with arithmetic on `Nat`.
- The `SoulboundToken.isVerified` gate is an external contract; it is passed
  to the step function as a parameter `v : Nat → Bool`.
- External ether transfers (`to.call{value: amount}("")`) can fail for reasons
  outside the contract (recipient reverts, insufficient balance, gas); their
  outcome is modelled by an oracle `xfer : Nat → Nat → Bool` (recipient,
  amount ↦ success).
- An operation is a whole EVM transaction: `stepOp` returns
  `Except Err (Ledger × List Transfer)`; on `Except.error` the transaction
  reverts, so `applyOp` keeps the pre-state.  The list of transfers records
  the outgoing ether payments the transaction made, in order.
- `address(this).balance` is the `balance` field; the ether attributable to a
  given agreement (its custody) is the `custody` list, indexed like `escrows`.
  Ether enters custody exactly at `deposit` and leaves it when the agreement
  is paid out, refunded, or drained by `emergencyWithdraw`.
-/

namespace RentalEscrow

/-- Escrow states, from the `EscrowState` enum of the contract. -/
inductive EscrowState where
  | Created
  | Deposited
  | Active
  | Completed
  | Disputed
  | Refunded
  | Cancelled
deriving DecidableEq, Repr, Inhabited

/-- The `EscrowAgreement` struct of the contract. -/
structure EscrowAgreement where
  borrower : Nat
  lender : Nat
  rentalAmount : Nat
  securityDeposit : Nat
  startTime : Nat
  endTime : Nat
  createdAt : Nat
  state : EscrowState
  itemDescription : String
  lenderConfirmed : Bool
  borrowerConfirmed : Bool
deriving DecidableEq, Repr, Inhabited

/-- The custom errors of the contract, plus the errors raised by the
OpenZeppelin `Ownable` and `Pausable` bases (`OwnableUnauthorizedAccount`,
`EnforcedPause`, `ExpectedPause`). -/
inductive Err where
  | invalidRentalDuration
  | invalidAmount
  | invalidEscrowState
  | unauthorizedAccess
  | insufficientDeposit
  | rentalNotStarted
  | rentalNotEnded
  | disputeTimeoutExceeded
  | escrowNotFound
  | transferFailed
  | ownableUnauthorizedAccount
  | enforcedPause
  | expectedPause
deriving DecidableEq, Repr

/-- `MIN_RENTAL_DURATION = 1 hours`. -/
def MIN_RENTAL_DURATION : Nat := 3600

/-- `MAX_RENTAL_DURATION = 365 days`. -/
def MAX_RENTAL_DURATION : Nat := 31536000

/-- `DISPUTE_TIMEOUT = 7 days`. -/
def DISPUTE_TIMEOUT : Nat := 604800

/-- The whole storage of the contract, together with its ether balance and
the per-agreement attribution of that balance (custody).  `escrows` is the
`mapping(uint256 => EscrowAgreement)` as an arena indexed by escrow id;
`_escrowIdCounter` is its length.  `userEscrows` is the
`mapping(address => uint256[])` as an association list (absent key = empty
array, as in Solidity). -/
structure Ledger where
  escrows : List EscrowAgreement
  userEscrows : List (Nat × List Nat)
  collectedFees : Nat
  platformFeePercentage : Nat
  owner : Nat
  paused : Bool
  balance : Nat
  custody : List Nat
deriving DecidableEq, Repr

/-- State right after the constructor: fee 2.5 percent (250 bps), unpaused,
no escrows, no ether. -/
def initialLedger (deployer : Nat) : Ledger :=
  { escrows := []
    userEscrows := []
    collectedFees := 0
    platformFeePercentage := 250
    owner := deployer
    paused := false
    balance := 0
    custody := [] }

/-- `userEscrows[u].push(id)`: append `id` to the array stored under `u`. -/
def pushUser : List (Nat × List Nat) → Nat → Nat → List (Nat × List Nat)
  | [], u, id => [(u, [id])]
  | (k, l) :: rest, u, id =>
      if k = u then (k, l ++ [id]) :: rest else (k, l) :: pushUser rest u id

/-- Read `userEscrows[u]` (empty array when absent, as in Solidity). -/
def lookupUser : List (Nat × List Nat) → Nat → List Nat
  | [], _ => []
  | (k, l) :: rest, u => if k = u then l else lookupUser rest u

/-- An outgoing ether payment: recipient and amount. -/
def Transfer := Nat × Nat
deriving instance DecidableEq, Repr for Transfer

deriving instance DecidableEq for Except

/-- The platform fee computation of `releaseToLender` / `resolveDispute`:
`(rentalAmount * platformFeePercentage) / 10000` with integer floor
division. -/
def fee (amount bps : Nat) : Nat := amount * bps / 10000

/-- One external transaction against the contract.  Each constructor carries
the calldata together with the transaction context it reads: `caller` is
`msg.sender`, `value` is `msg.value`, `now` is `block.timestamp`, and `xfer`
is the outcome oracle for the external calls the transaction attempts. -/
inductive Op where
  | createEscrow (caller now lender rentalAmount securityDeposit duration : Nat)
      (itemDescription : String)
  | deposit (caller value escrowId : Nat)
  | activateRental (caller escrowId : Nat)
  | releaseToLender (caller now escrowId : Nat) (xfer : Nat → Nat → Bool)
  | raiseDispute (caller now escrowId : Nat) (reason : String)
  | resolveDispute (caller escrowId : Nat) (favorBorrower : Bool)
      (xfer : Nat → Nat → Bool)
  | cancelEscrow (caller escrowId : Nat)
  | getEscrowView (escrowId : Nat)
  | getUserEscrowsView (user : Nat)
  | withdrawFees (caller dst : Nat) (xfer : Nat → Nat → Bool)
  | updatePlatformFee (caller newFeePercentage : Nat)
  | pause (caller : Nat)
  | unpause (caller : Nat)
  | emergencyWithdraw (caller : Nat) (xfer : Nat → Nat → Bool)

/-- `function createEscrow(...)` with its `onlyVerified` and `whenNotPaused`
modifiers (in that order). -/
def createEscrow (v : Nat → Bool) (s : Ledger)
    (caller now lender rentalAmount securityDeposit duration : Nat)
    (itemDescription : String) : Except Err (Ledger × List Transfer) :=
  if ¬ v caller then .error .unauthorizedAccess
  else if s.paused then .error .enforcedPause
  else if lender = 0 ∨ lender = caller then .error .invalidAmount
  else if ¬ v lender then .error .unauthorizedAccess
  else if rentalAmount = 0 then .error .invalidAmount
  else if duration < MIN_RENTAL_DURATION ∨ duration > MAX_RENTAL_DURATION then
    .error .invalidRentalDuration
  else
    let escrowId := s.escrows.length
    let startTime := now
    let endTime := startTime + duration
    let a : EscrowAgreement :=
      { borrower := caller
        lender := lender
        rentalAmount := rentalAmount
        securityDeposit := securityDeposit
        startTime := startTime
        endTime := endTime
        createdAt := now
        state := .Created
        itemDescription := itemDescription
        lenderConfirmed := false
        borrowerConfirmed := false }
    .ok ({ s with
            escrows := s.escrows ++ [a]
            custody := s.custody ++ [0]
            userEscrows := pushUser (pushUser s.userEscrows caller escrowId)
                             lender escrowId },
         [])

/-- `function deposit(uint256 escrowId) payable` with its `escrowExists`
modifier.  The `msg.value` sent with the call enters the contract's balance
(and the agreement's custody) exactly when the transaction succeeds. -/
def deposit (s : Ledger) (caller value escrowId : Nat) :
    Except Err (Ledger × List Transfer) :=
  if escrowId ≥ s.escrows.length then .error .escrowNotFound
  else
    let a := s.escrows.getD escrowId default
    if caller ≠ a.borrower then .error .unauthorizedAccess
    else if a.state ≠ .Created then .error .invalidEscrowState
    else if value ≠ a.rentalAmount + a.securityDeposit then
      .error .insufficientDeposit
    else
      .ok ({ s with
              escrows := s.escrows.set escrowId { a with state := .Deposited }
              balance := s.balance + value
              custody := s.custody.set escrowId (s.custody.getD escrowId 0 + value) },
           [])

/-- `function activateRental(uint256 escrowId)` with `escrowExists`. -/
def activateRental (s : Ledger) (caller escrowId : Nat) :
    Except Err (Ledger × List Transfer) :=
  if escrowId ≥ s.escrows.length then .error .escrowNotFound
  else
    let a := s.escrows.getD escrowId default
    if caller ≠ a.lender then .error .unauthorizedAccess
    else if a.state ≠ .Deposited then .error .invalidEscrowState
    else
      .ok ({ s with
              escrows := s.escrows.set escrowId
                { a with state := .Active, lenderConfirmed := true } },
           [])

/-- `function releaseToLender(uint256 escrowId)` with `escrowExists`.
The body sets `state = Completed`, accrues the platform fee, then attempts
the two external transfers; a failed transfer reverts the whole transaction
(the mutated state is discarded by `applyOp`). -/
def releaseToLender (s : Ledger) (caller now escrowId : Nat)
    (xfer : Nat → Nat → Bool) : Except Err (Ledger × List Transfer) :=
  if escrowId ≥ s.escrows.length then .error .escrowNotFound
  else
    let a := s.escrows.getD escrowId default
    if caller ≠ a.lender then .error .unauthorizedAccess
    else if a.state ≠ .Active then .error .invalidEscrowState
    else if now < a.endTime then .error .rentalNotEnded
    else
      let platformFee := fee a.rentalAmount s.platformFeePercentage
      let lenderAmount := a.rentalAmount - platformFee
      if ¬ xfer a.lender lenderAmount then .error .transferFailed
      else if ¬ xfer a.borrower a.securityDeposit then .error .transferFailed
      else
        .ok ({ s with
                escrows := s.escrows.set escrowId { a with state := .Completed }
                collectedFees := s.collectedFees + platformFee
                balance := s.balance - (lenderAmount + a.securityDeposit)
                custody := s.custody.set escrowId 0 },
             [(a.lender, lenderAmount), (a.borrower, a.securityDeposit)])

/-- `function raiseDispute(uint256 escrowId, string reason)` with
`escrowExists`.  The contract does not inspect `reason`. -/
def raiseDispute (s : Ledger) (caller now escrowId : Nat) (_reason : String) :
    Except Err (Ledger × List Transfer) :=
  if escrowId ≥ s.escrows.length then .error .escrowNotFound
  else
    let a := s.escrows.getD escrowId default
    if caller ≠ a.borrower ∧ caller ≠ a.lender then .error .unauthorizedAccess
    else if a.state ≠ .Active then .error .invalidEscrowState
    else if now > a.endTime + DISPUTE_TIMEOUT then .error .disputeTimeoutExceeded
    else
      .ok ({ s with
              escrows := s.escrows.set escrowId { a with state := .Disputed } },
           [])

/-- `function resolveDispute(uint256 escrowId, bool favorBorrower)` with
`onlyOwner` and `escrowExists` (in that order). -/
def resolveDispute (s : Ledger) (caller escrowId : Nat) (favorBorrower : Bool)
    (xfer : Nat → Nat → Bool) : Except Err (Ledger × List Transfer) :=
  if caller ≠ s.owner then .error .ownableUnauthorizedAccount
  else if escrowId ≥ s.escrows.length then .error .escrowNotFound
  else
    let a := s.escrows.getD escrowId default
    if a.state ≠ .Disputed then .error .invalidEscrowState
    else match favorBorrower with
    | true =>
      let refundAmount := a.rentalAmount + a.securityDeposit
      if ¬ xfer a.borrower refundAmount then .error .transferFailed
      else
        .ok ({ s with
                escrows := s.escrows.set escrowId { a with state := .Refunded }
                balance := s.balance - refundAmount
                custody := s.custody.set escrowId 0 },
             [(a.borrower, refundAmount)])
    | false =>
      let platformFee := fee a.rentalAmount s.platformFeePercentage
      let lenderAmount := a.rentalAmount - platformFee
      if ¬ xfer a.lender lenderAmount then .error .transferFailed
      else if ¬ xfer a.borrower a.securityDeposit then .error .transferFailed
      else
        .ok ({ s with
                escrows := s.escrows.set escrowId { a with state := .Completed }
                collectedFees := s.collectedFees + platformFee
                balance := s.balance - (lenderAmount + a.securityDeposit)
                custody := s.custody.set escrowId 0 },
             [(a.lender, lenderAmount), (a.borrower, a.securityDeposit)])

/-- `function cancelEscrow(uint256 escrowId)` with `escrowExists`. -/
def cancelEscrow (s : Ledger) (caller escrowId : Nat) :
    Except Err (Ledger × List Transfer) :=
  if escrowId ≥ s.escrows.length then .error .escrowNotFound
  else
    let a := s.escrows.getD escrowId default
    if caller ≠ a.borrower ∧ caller ≠ a.lender then .error .unauthorizedAccess
    else if a.state ≠ .Created then .error .invalidEscrowState
    else
      .ok ({ s with
              escrows := s.escrows.set escrowId { a with state := .Cancelled } },
           [])

/-- `function getEscrow(uint256 escrowId) view` with `escrowExists`. -/
def getEscrow (s : Ledger) (escrowId : Nat) : Except Err EscrowAgreement :=
  if escrowId ≥ s.escrows.length then .error .escrowNotFound
  else .ok (s.escrows.getD escrowId default)

/-- `function getUserEscrows(address user) view`: returns the stored array;
never reverts (an address with no escrows maps to the empty array). -/
def getUserEscrows (s : Ledger) (user : Nat) : Except Err (List Nat) :=
  .ok (lookupUser s.userEscrows user)

/-- `function withdrawFees(address to)` with `onlyOwner`.  The subtraction on
`balance` is truncated `Nat` subtraction; when the contract's ether balance
is below `collectedFees` (possible only after `emergencyWithdraw`) the real
transfer fails for insufficient balance, which the oracle accounts for. -/
def withdrawFees (s : Ledger) (caller dst : Nat) (xfer : Nat → Nat → Bool) :
    Except Err (Ledger × List Transfer) :=
  if caller ≠ s.owner then .error .ownableUnauthorizedAccount
  else if dst = 0 then .error .invalidAmount
  else
    let amount := s.collectedFees
    if ¬ xfer dst amount then .error .transferFailed
    else
      .ok ({ s with collectedFees := 0, balance := s.balance - amount },
           [(dst, amount)])

/-- `function updatePlatformFee(uint256 newFeePercentage)` with
`onlyOwner`. -/
def updatePlatformFee (s : Ledger) (caller newFeePercentage : Nat) :
    Except Err (Ledger × List Transfer) :=
  if caller ≠ s.owner then .error .ownableUnauthorizedAccount
  else if newFeePercentage > 1000 then .error .invalidAmount
  else .ok ({ s with platformFeePercentage := newFeePercentage }, [])

/-- `function pause()` (`onlyOwner`; `_pause` reverts when already
paused). -/
def pauseOp (s : Ledger) (caller : Nat) : Except Err (Ledger × List Transfer) :=
  if caller ≠ s.owner then .error .ownableUnauthorizedAccount
  else if s.paused then .error .enforcedPause
  else .ok ({ s with paused := true }, [])

/-- `function unpause()` (`onlyOwner`; `_unpause` reverts when not
paused). -/
def unpauseOp (s : Ledger) (caller : Nat) : Except Err (Ledger × List Transfer) :=
  if caller ≠ s.owner then .error .ownableUnauthorizedAccount
  else if ¬ s.paused then .error .expectedPause
  else .ok ({ s with paused := false }, [])

/-- `function emergencyWithdraw()` with `onlyOwner` and `whenPaused`:
transfers the ENTIRE contract balance — custody of live agreements
included — to the owner.  Agreement records and the `collectedFees` counter
are not touched. -/
def emergencyWithdraw (s : Ledger) (caller : Nat) (xfer : Nat → Nat → Bool) :
    Except Err (Ledger × List Transfer) :=
  if caller ≠ s.owner then .error .ownableUnauthorizedAccount
  else if ¬ s.paused then .error .expectedPause
  else if ¬ xfer s.owner s.balance then .error .transferFailed
  else
    .ok ({ s with balance := 0, custody := s.custody.map (fun _ => 0) },
         [(s.owner, s.balance)])

/-- One transaction: dispatch to the contract function. -/
def stepOp (v : Nat → Bool) (s : Ledger) : Op → Except Err (Ledger × List Transfer)
  | .createEscrow caller now lender rentalAmount securityDeposit duration d =>
      createEscrow v s caller now lender rentalAmount securityDeposit duration d
  | .deposit caller value escrowId => deposit s caller value escrowId
  | .activateRental caller escrowId => activateRental s caller escrowId
  | .releaseToLender caller now escrowId xfer =>
      releaseToLender s caller now escrowId xfer
  | .raiseDispute caller now escrowId reason =>
      raiseDispute s caller now escrowId reason
  | .resolveDispute caller escrowId favorBorrower xfer =>
      resolveDispute s caller escrowId favorBorrower xfer
  | .cancelEscrow caller escrowId => cancelEscrow s caller escrowId
  | .getEscrowView escrowId => (getEscrow s escrowId).map (fun _ => (s, []))
  | .getUserEscrowsView user => (getUserEscrows s user).map (fun _ => (s, []))
  | .withdrawFees caller dst xfer => withdrawFees s caller dst xfer
  | .updatePlatformFee caller newFeePercentage =>
      updatePlatformFee s caller newFeePercentage
  | .pause caller => pauseOp s caller
  | .unpause caller => unpauseOp s caller
  | .emergencyWithdraw caller xfer => emergencyWithdraw s caller xfer

/-- EVM transaction semantics: a reverted transaction leaves storage and
balances exactly as they were. -/
def applyOp (v : Nat → Bool) (s : Ledger) (op : Op) : Ledger :=
  match stepOp v s op with
  | .ok (s', _) => s'
  | .error _ => s

/-- A sequence of transactions. -/
def applyOps (v : Nat → Bool) (s : Ledger) (ops : List Op) : Ledger :=
  ops.foldl (applyOp v) s

/-- Ether the ledger custodies for an agreement as the contract actually
behaves: funds are held from `deposit` until they are paid out or refunded,
so through states `Deposited`, `Active` AND `Disputed` (a dispute freezes
the funds in the contract until `resolveDispute`). -/
def expectedCustody (a : EscrowAgreement) : Nat :=
  if a.state = .Deposited ∨ a.state = .Active ∨ a.state = .Disputed
  then a.rentalAmount + a.securityDeposit else 0

/-- Ether the spec claims the ledger custodies for an agreement:
`rentalAmount + securityDeposit` in states `Deposited`/`Active` only, zero
in every other state (`Disputed` included). -/
def claimedCustody (a : EscrowAgreement) : Nat :=
  if a.state = .Deposited ∨ a.state = .Active
  then a.rentalAmount + a.securityDeposit else 0

/-- The custody invariant the code maintains: the custody table is indexed
like the escrow table, and each agreement's custody is
`rentalAmount + securityDeposit` in states `Deposited`/`Active`/`Disputed`
and zero otherwise. -/
def Inv (s : Ledger) : Prop :=
  s.custody.length = s.escrows.length ∧
  ∀ i, i < s.escrows.length →
    s.custody.getD i 0 = expectedCustody (s.escrows.getD i default)

instance (s : Ledger) : Decidable (Inv s) := by
  unfold Inv; infer_instance

/-- The custody invariant exactly as the spec claims it (zero custody in
`Disputed`). -/
def ClaimInv (s : Ledger) : Prop :=
  s.custody.length = s.escrows.length ∧
  ∀ i, i < s.escrows.length →
    s.custody.getD i 0 = claimedCustody (s.escrows.getD i default)

instance (s : Ledger) : Decidable (ClaimInv s) := by
  unfold ClaimInv; infer_instance

/-- Does this transaction call `emergencyWithdraw`? -/
def isEmergencyWithdraw : Op → Bool
  | .emergencyWithdraw _ _ => true
  | _ => false

/-- A transfer oracle under which every external call succeeds. -/
def allOk : Nat → Nat → Bool := fun _ _ => true

/-- A transfer oracle under which every external call fails. -/
def allFail : Nat → Nat → Bool := fun _ _ => false

/-- A verification gate that authorizes every address. -/
def vAll : Nat → Bool := fun _ => true

/-- Concrete scenario of the spec, first step: owner 1, borrower 2,
lender 3, rental 1000000 wei, deposit 500000 wei, duration one day,
created at time 0. -/
def demoCreated : Ledger :=
  applyOps vAll (initialLedger 1)
    [.createEscrow 2 0 3 1000000 500000 86400 "bike"]

/-- The same scenario after the borrower deposits 1500000 and the lender
activates. -/
def demoActive : Ledger :=
  applyOps vAll demoCreated
    [.deposit 2 1500000 0,
     .activateRental 3 0]

/-- The same scenario after the owner pauses the contract. -/
def demoPaused : Ledger := applyOps vAll demoActive [.pause 1]

/-! Inversion lemmas: what a successful call tells us about the
preconditions, the new storage, and the transfers made. -/

/-- Successful `createEscrow`: preconditions held and a fresh `Created`
agreement was appended, indexed under both parties. -/
theorem createEscrow_ok_inv {v : Nat → Bool} {s : Ledger}
    {caller now lender ra sd du : Nat} {desc : String}
    {s' : Ledger} {out : List Transfer}
    (h : createEscrow v s caller now lender ra sd du desc = .ok (s', out)) :
    v caller = true ∧ s.paused = false ∧ lender ≠ 0 ∧ lender ≠ caller ∧
    v lender = true ∧ ra ≠ 0 ∧
    MIN_RENTAL_DURATION ≤ du ∧ du ≤ MAX_RENTAL_DURATION ∧
    s' = { s with
            escrows := s.escrows ++
              [{ borrower := caller, lender := lender, rentalAmount := ra,
                 securityDeposit := sd, startTime := now, endTime := now + du,
                 createdAt := now, state := .Created, itemDescription := desc,
                 lenderConfirmed := false, borrowerConfirmed := false }]
            custody := s.custody ++ [0]
            userEscrows := pushUser (pushUser s.userEscrows caller
              s.escrows.length) lender s.escrows.length } ∧
    out = [] := by
  unfold createEscrow at h
  split_ifs at h with h1 h2 h3 h4 h5 h6
  simp only [Except.ok.injEq, Prod.mk.injEq] at h
  push_neg at h1 h3 h5
  refine ⟨by simpa using h1, by simpa using h2, h3.1, h3.2,
    by simpa using h4, h5, ?_, ?_, h.1.symm, h.2.symm⟩
  · exact Nat.le_of_not_lt (fun hc => h6 (Or.inl hc))
  · exact Nat.le_of_not_lt (fun hc => h6 (Or.inr hc))

/-- Successful `deposit`: the caller is the borrower, the agreement was
`Created`, the value is the exact total, and the funds entered custody. -/
theorem deposit_ok_inv {s : Ledger} {caller value escrowId : Nat}
    {s' : Ledger} {out : List Transfer}
    (h : deposit s caller value escrowId = .ok (s', out)) :
    escrowId < s.escrows.length ∧
    caller = (s.escrows.getD escrowId default).borrower ∧
    (s.escrows.getD escrowId default).state = .Created ∧
    value = (s.escrows.getD escrowId default).rentalAmount +
      (s.escrows.getD escrowId default).securityDeposit ∧
    s' = { s with
            escrows := s.escrows.set escrowId
              { s.escrows.getD escrowId default with state := .Deposited }
            balance := s.balance + value
            custody := s.custody.set escrowId
              (s.custody.getD escrowId 0 + value) } ∧
    out = [] := by
  simp only [deposit] at h
  split_ifs at h with h1 h2 h3 h4
  simp only [Except.ok.injEq, Prod.mk.injEq] at h
  push_neg at h1 h2 h3 h4
  exact ⟨h1, h2, h3, h4, h.1.symm, h.2.symm⟩

/-- Successful `activateRental`: caller is the lender, the agreement was
`Deposited`, and it is now `Active` with `lenderConfirmed` set. -/
theorem activateRental_ok_inv {s : Ledger} {caller escrowId : Nat}
    {s' : Ledger} {out : List Transfer}
    (h : activateRental s caller escrowId = .ok (s', out)) :
    escrowId < s.escrows.length ∧
    caller = (s.escrows.getD escrowId default).lender ∧
    (s.escrows.getD escrowId default).state = .Deposited ∧
    s' = { s with
            escrows := s.escrows.set escrowId
              { s.escrows.getD escrowId default with
                  state := .Active, lenderConfirmed := true } } ∧
    out = [] := by
  simp only [activateRental] at h
  split_ifs at h with h1 h2 h3
  simp only [Except.ok.injEq, Prod.mk.injEq] at h
  push_neg at h1 h2 h3
  exact ⟨h1, h2, h3, h.1.symm, h.2.symm⟩

/-- Successful `releaseToLender`: caller is the lender, the agreement was
`Active` and past `endTime`; the payout and fee accrual happened and the
agreement is `Completed`. -/
theorem releaseToLender_ok_inv {s : Ledger} {caller now escrowId : Nat}
    {xfer : Nat → Nat → Bool} {s' : Ledger} {out : List Transfer}
    (h : releaseToLender s caller now escrowId xfer = .ok (s', out)) :
    escrowId < s.escrows.length ∧
    caller = (s.escrows.getD escrowId default).lender ∧
    (s.escrows.getD escrowId default).state = .Active ∧
    (s.escrows.getD escrowId default).endTime ≤ now ∧
    s' = { s with
            escrows := s.escrows.set escrowId
              { s.escrows.getD escrowId default with state := .Completed }
            collectedFees := s.collectedFees +
              fee (s.escrows.getD escrowId default).rentalAmount
                s.platformFeePercentage
            balance := s.balance -
              (((s.escrows.getD escrowId default).rentalAmount -
                fee (s.escrows.getD escrowId default).rentalAmount
                  s.platformFeePercentage) +
               (s.escrows.getD escrowId default).securityDeposit)
            custody := s.custody.set escrowId 0 } ∧
    out = [((s.escrows.getD escrowId default).lender,
             (s.escrows.getD escrowId default).rentalAmount -
               fee (s.escrows.getD escrowId default).rentalAmount
                 s.platformFeePercentage),
           ((s.escrows.getD escrowId default).borrower,
             (s.escrows.getD escrowId default).securityDeposit)] := by
  simp only [releaseToLender] at h
  split_ifs at h with h1 h2 h3 h4 h5 h6
  simp only [Except.ok.injEq, Prod.mk.injEq] at h
  push_neg at h1 h2 h3 h4
  exact ⟨h1, h2, h3, h4, h.1.symm, h.2.symm⟩

/-- Successful `raiseDispute`: caller is a party, the agreement was `Active`
within the dispute window, and is now `Disputed`; no funds moved. -/
theorem raiseDispute_ok_inv {s : Ledger} {caller now escrowId : Nat}
    {reason : String} {s' : Ledger} {out : List Transfer}
    (h : raiseDispute s caller now escrowId reason = .ok (s', out)) :
    escrowId < s.escrows.length ∧
    (caller = (s.escrows.getD escrowId default).borrower ∨
     caller = (s.escrows.getD escrowId default).lender) ∧
    (s.escrows.getD escrowId default).state = .Active ∧
    now ≤ (s.escrows.getD escrowId default).endTime + DISPUTE_TIMEOUT ∧
    s' = { s with
            escrows := s.escrows.set escrowId
              { s.escrows.getD escrowId default with state := .Disputed } } ∧
    out = [] := by
  simp only [raiseDispute] at h
  split_ifs at h with h1 h2 h3 h4
  simp only [Except.ok.injEq, Prod.mk.injEq] at h
  push_neg at h1 h2 h3 h4
  rcases Decidable.em
    (caller = (s.escrows.getD escrowId default).borrower) with hb | hb
  · exact ⟨h1, Or.inl hb, h3, h4, h.1.symm, h.2.symm⟩
  · exact ⟨h1, Or.inr ((h2 hb)), h3, h4, h.1.symm, h.2.symm⟩

/-- Successful `resolveDispute` in favor of the borrower: full refund,
state `Refunded`. -/
theorem resolveDispute_borrower_ok_inv {s : Ledger} {caller escrowId : Nat}
    {xfer : Nat → Nat → Bool} {s' : Ledger} {out : List Transfer}
    (h : resolveDispute s caller escrowId true xfer = .ok (s', out)) :
    caller = s.owner ∧
    escrowId < s.escrows.length ∧
    (s.escrows.getD escrowId default).state = .Disputed ∧
    s' = { s with
            escrows := s.escrows.set escrowId
              { s.escrows.getD escrowId default with state := .Refunded }
            balance := s.balance -
              ((s.escrows.getD escrowId default).rentalAmount +
               (s.escrows.getD escrowId default).securityDeposit)
            custody := s.custody.set escrowId 0 } ∧
    out = [((s.escrows.getD escrowId default).borrower,
             (s.escrows.getD escrowId default).rentalAmount +
               (s.escrows.getD escrowId default).securityDeposit)] := by
  simp only [resolveDispute] at h
  split_ifs at h with h1 h2 h3 h4
  simp only [Except.ok.injEq, Prod.mk.injEq] at h
  push_neg at h1 h2 h3
  exact ⟨h1, h2, h3, h.1.symm, h.2.symm⟩

/-- Successful `resolveDispute` in favor of the lender: payout as in
`releaseToLender`, state `Completed`. -/
theorem resolveDispute_lender_ok_inv {s : Ledger} {caller escrowId : Nat}
    {xfer : Nat → Nat → Bool} {s' : Ledger} {out : List Transfer}
    (h : resolveDispute s caller escrowId false xfer = .ok (s', out)) :
    caller = s.owner ∧
    escrowId < s.escrows.length ∧
    (s.escrows.getD escrowId default).state = .Disputed ∧
    s' = { s with
            escrows := s.escrows.set escrowId
              { s.escrows.getD escrowId default with state := .Completed }
            collectedFees := s.collectedFees +
              fee (s.escrows.getD escrowId default).rentalAmount
                s.platformFeePercentage
            balance := s.balance -
              (((s.escrows.getD escrowId default).rentalAmount -
                fee (s.escrows.getD escrowId default).rentalAmount
                  s.platformFeePercentage) +
               (s.escrows.getD escrowId default).securityDeposit)
            custody := s.custody.set escrowId 0 } ∧
    out = [((s.escrows.getD escrowId default).lender,
             (s.escrows.getD escrowId default).rentalAmount -
               fee (s.escrows.getD escrowId default).rentalAmount
                 s.platformFeePercentage),
           ((s.escrows.getD escrowId default).borrower,
             (s.escrows.getD escrowId default).securityDeposit)] := by
  simp only [resolveDispute] at h
  split_ifs at h with h1 h2 h3 h4 h5
  simp only [Except.ok.injEq, Prod.mk.injEq] at h
  push_neg at h1 h2 h3
  exact ⟨h1, h2, h3, h.1.symm, h.2.symm⟩

/-- Successful `cancelEscrow`: caller is a party, the agreement was
`Created`, and is now `Cancelled`. -/
theorem cancelEscrow_ok_inv {s : Ledger} {caller escrowId : Nat}
    {s' : Ledger} {out : List Transfer}
    (h : cancelEscrow s caller escrowId = .ok (s', out)) :
    escrowId < s.escrows.length ∧
    (caller = (s.escrows.getD escrowId default).borrower ∨
     caller = (s.escrows.getD escrowId default).lender) ∧
    (s.escrows.getD escrowId default).state = .Created ∧
    s' = { s with
            escrows := s.escrows.set escrowId
              { s.escrows.getD escrowId default with state := .Cancelled } } ∧
    out = [] := by
  simp only [cancelEscrow] at h
  split_ifs at h with h1 h2 h3
  simp only [Except.ok.injEq, Prod.mk.injEq] at h
  push_neg at h1 h2 h3
  rcases Decidable.em
    (caller = (s.escrows.getD escrowId default).borrower) with hb | hb
  · exact ⟨h1, Or.inl hb, h3, h.1.symm, h.2.symm⟩
  · exact ⟨h1, Or.inr (h2 hb), h3, h.1.symm, h.2.symm⟩

/-- Successful `withdrawFees`: only the fee counter and the balance
changed. -/
theorem withdrawFees_ok_inv {s : Ledger} {caller dst : Nat}
    {xfer : Nat → Nat → Bool} {s' : Ledger} {out : List Transfer}
    (h : withdrawFees s caller dst xfer = .ok (s', out)) :
    caller = s.owner ∧ dst ≠ 0 ∧
    s' = { s with collectedFees := 0, balance := s.balance - s.collectedFees } ∧
    out = [(dst, s.collectedFees)] := by
  simp only [withdrawFees] at h
  split_ifs at h with h1 h2 h3
  simp only [Except.ok.injEq, Prod.mk.injEq] at h
  push_neg at h1 h2
  exact ⟨h1, h2, h.1.symm, h.2.symm⟩

/-- Successful `updatePlatformFee`: the new rate is at most 1000 bps and
only that field changed. -/
theorem updatePlatformFee_ok_inv {s : Ledger} {caller newFee : Nat}
    {s' : Ledger} {out : List Transfer}
    (h : updatePlatformFee s caller newFee = .ok (s', out)) :
    caller = s.owner ∧ newFee ≤ 1000 ∧
    s' = { s with platformFeePercentage := newFee } ∧ out = [] := by
  simp only [updatePlatformFee] at h
  split_ifs at h with h1 h2
  simp only [Except.ok.injEq, Prod.mk.injEq] at h
  push_neg at h1 h2
  exact ⟨h1, h2, h.1.symm, h.2.symm⟩

/-- Successful `pause`: only the paused flag changed. -/
theorem pauseOp_ok_inv {s : Ledger} {caller : Nat}
    {s' : Ledger} {out : List Transfer}
    (h : pauseOp s caller = .ok (s', out)) :
    caller = s.owner ∧ s.paused = false ∧
    s' = { s with paused := true } ∧ out = [] := by
  simp only [pauseOp] at h
  split_ifs at h with h1 h2
  simp only [Except.ok.injEq, Prod.mk.injEq] at h
  push_neg at h1
  exact ⟨h1, by simpa using h2, h.1.symm, h.2.symm⟩

/-- Successful `unpause`: only the paused flag changed. -/
theorem unpauseOp_ok_inv {s : Ledger} {caller : Nat}
    {s' : Ledger} {out : List Transfer}
    (h : unpauseOp s caller = .ok (s', out)) :
    caller = s.owner ∧ s.paused = true ∧
    s' = { s with paused := false } ∧ out = [] := by
  simp only [unpauseOp] at h
  split_ifs at h with h1 h2
  simp only [Except.ok.injEq, Prod.mk.injEq] at h
  push_neg at h1 h2
  exact ⟨h1, by simpa using h2, h.1.symm, h.2.symm⟩

/-- Successful `emergencyWithdraw`: the whole balance went to the owner;
agreement records and the fee counter are untouched, custody is drained. -/
theorem emergencyWithdraw_ok_inv {s : Ledger} {caller : Nat}
    {xfer : Nat → Nat → Bool} {s' : Ledger} {out : List Transfer}
    (h : emergencyWithdraw s caller xfer = .ok (s', out)) :
    caller = s.owner ∧ s.paused = true ∧
    s' = { s with balance := 0, custody := s.custody.map (fun _ => 0) } ∧
    out = [(s.owner, s.balance)] := by
  simp only [emergencyWithdraw] at h
  split_ifs at h with h1 h2 h3
  simp only [Except.ok.injEq, Prod.mk.injEq] at h
  push_neg at h1 h2
  exact ⟨h1, by simpa using h2, h.1.symm, h.2.symm⟩

/-- Successful view calls do not change the state. -/
theorem view_ok_inv {s : Ledger} {escrowId : Nat} {s' : Ledger}
    {out : List Transfer}
    (h : stepOp v s (.getEscrowView escrowId) = .ok (s', out) ∨
         stepOp v s (.getUserEscrowsView escrowId) = .ok (s', out)) :
    s' = s ∧ out = [] := by
  rcases h with h | h
  · by_cases h1 : escrowId ≥ s.escrows.length
    · simp [stepOp, getEscrow, h1, Except.map] at h
    · simp only [stepOp, getEscrow, h1, if_false, Except.map,
        Except.ok.injEq, Prod.mk.injEq] at h
      exact ⟨h.1.symm, h.2.symm⟩
  · simp only [stepOp, getUserEscrows, Except.map, Except.ok.injEq,
      Prod.mk.injEq] at h
    exact ⟨h.1.symm, h.2.symm⟩

/-- A reverted transaction leaves the ledger unchanged. -/
theorem applyOp_of_error {v : Nat → Bool} {s : Ledger} {op : Op} {e : Err}
    (h : stepOp v s op = .error e) : applyOp v s op = s := by
  unfold applyOp
  rw [h]

/-- A committed transaction ends in the state the step function returned. -/
theorem applyOp_of_ok {v : Nat → Bool} {s : Ledger} {op : Op} {s' : Ledger}
    {out : List Transfer} (h : stepOp v s op = .ok (s', out)) :
    applyOp v s op = s' := by
  unfold applyOp
  rw [h]

/-- Claim C2: if an operation fails with `TransferFailed` (the one error
that can occur after its preconditions passed), the agreement's state, all
its fields, and all custody and fee-pool balances are exactly as they were
before the call: the transaction reverts, so the whole ledger is
unchanged. -/
theorem transferFailed_atomic (v : Nat → Bool) (s : Ledger) (op : Op)
    (h : stepOp v s op = .error .transferFailed) : applyOp v s op = s :=
  applyOp_of_error h

/-- Witness for C2: on the concrete active scenario, `releaseToLender` with
both external transfers failing reverts with `TransferFailed` and leaves
the ledger unchanged. -/
theorem transferFailed_atomic_witness :
    stepOp vAll demoActive (.releaseToLender 3 86400 0 allFail) =
      .error .transferFailed ∧
    applyOp vAll demoActive (.releaseToLender 3 86400 0 allFail) =
      demoActive :=
  ⟨by decide,
   transferFailed_atomic vAll demoActive (.releaseToLender 3 86400 0 allFail)
     (by decide)⟩

/-- Claim C9: the fee function `fee(amount, bps) = amount * bps / 10000`
(floor division) is monotonically non-decreasing in both arguments,
`fee(amount, 250)` is `amount * 250 / 10000` for every amount, and the bps
parameter stays in `[0, 1000]`: it starts at 250, `updatePlatformFee`
rejects values above 1000 with `InvalidAmount`, and no operation can move
it above 1000. -/
theorem fee_spec :
    (∀ a a' b : Nat, a ≤ a' → fee a b ≤ fee a' b) ∧
    (∀ a b b' : Nat, b ≤ b' → fee a b ≤ fee a b') ∧
    (∀ a : Nat, fee a 250 = a * 250 / 10000) ∧
    (∀ s : Ledger, ∀ n : Nat, 1000 < n →
      updatePlatformFee s s.owner n = .error .invalidAmount) ∧
    (∀ d : Nat, (initialLedger d).platformFeePercentage = 250) ∧
    (∀ (v : Nat → Bool) (s : Ledger) (op : Op),
      s.platformFeePercentage ≤ 1000 →
      (applyOp v s op).platformFeePercentage ≤ 1000) := by
  refine ⟨?_, ?_, ?_, ?_, ?_, ?_⟩
  · intro a a' b h
    exact Nat.div_le_div_right (Nat.mul_le_mul_right b h)
  · intro a b b' h
    exact Nat.div_le_div_right (Nat.mul_le_mul_left a h)
  · intro a
    rfl
  · intro s n hn
    simp [updatePlatformFee, hn]
  · intro d
    rfl
  · intro v s op h
    cases hstep : stepOp v s op with
    | error e => rw [applyOp_of_error hstep]; exact h
    | ok p =>
      obtain ⟨s', out⟩ := p
      rw [applyOp_of_ok hstep]
      cases op with
      | createEscrow caller now lender ra sd du desc =>
        obtain ⟨-, -, -, -, -, -, -, -, hs, -⟩ := createEscrow_ok_inv hstep
        subst hs; exact h
      | deposit caller value escrowId =>
        obtain ⟨-, -, -, -, hs, -⟩ := deposit_ok_inv hstep
        subst hs; exact h
      | activateRental caller escrowId =>
        obtain ⟨-, -, -, hs, -⟩ := activateRental_ok_inv hstep
        subst hs; exact h
      | releaseToLender caller now escrowId xfer =>
        obtain ⟨-, -, -, -, hs, -⟩ := releaseToLender_ok_inv hstep
        subst hs; exact h
      | raiseDispute caller now escrowId reason =>
        obtain ⟨-, -, -, -, hs, -⟩ :=
          @raiseDispute_ok_inv s caller now escrowId reason s' out hstep
        subst hs; exact h
      | resolveDispute caller escrowId favorBorrower xfer =>
        cases favorBorrower with
        | true =>
          obtain ⟨-, -, -, hs, -⟩ := resolveDispute_borrower_ok_inv hstep
          subst hs; exact h
        | false =>
          obtain ⟨-, -, -, hs, -⟩ := resolveDispute_lender_ok_inv hstep
          subst hs; exact h
      | cancelEscrow caller escrowId =>
        obtain ⟨-, -, -, hs, -⟩ := cancelEscrow_ok_inv hstep
        subst hs; exact h
      | getEscrowView escrowId =>
        obtain ⟨hs, -⟩ := view_ok_inv (Or.inl hstep)
        subst hs; exact h
      | getUserEscrowsView user =>
        obtain ⟨hs, -⟩ := view_ok_inv (Or.inr hstep)
        subst hs; exact h
      | withdrawFees caller dst xfer =>
        obtain ⟨-, -, hs, -⟩ := withdrawFees_ok_inv hstep
        subst hs; exact h
      | updatePlatformFee caller newFee =>
        obtain ⟨-, hle, hs, -⟩ := updatePlatformFee_ok_inv hstep
        subst hs; exact hle
      | pause caller =>
        obtain ⟨-, -, hs, -⟩ := pauseOp_ok_inv hstep
        subst hs; exact h
      | unpause caller =>
        obtain ⟨-, -, hs, -⟩ := unpauseOp_ok_inv hstep
        subst hs; exact h
      | emergencyWithdraw caller xfer =>
        obtain ⟨-, -, hs, -⟩ := emergencyWithdraw_ok_inv hstep
        subst hs; exact h

/-- Witness for C9 at concrete inputs: monotonicity at `100 ≤ 200` and
`100 ≤ 250` bps, the 250-bps formula at `1000000`, rejection of `1500`
bps, and bps-bound preservation across a concrete `pause`. -/
theorem fee_spec_witness :
    fee 100 250 ≤ fee 200 250 ∧
    fee 1000000 100 ≤ fee 1000000 250 ∧
    fee 1000000 250 = 1000000 * 250 / 10000 ∧
    updatePlatformFee demoActive demoActive.owner 1500 =
      .error .invalidAmount ∧
    (applyOp vAll demoActive (.pause 1)).platformFeePercentage ≤ 1000 :=
  ⟨fee_spec.1 100 200 250 (by decide),
   fee_spec.2.1 1000000 100 250 (by decide),
   fee_spec.2.2.1 1000000,
   fee_spec.2.2.2.1 demoActive 1500 (by decide),
   fee_spec.2.2.2.2.2 vAll demoActive (.pause 1) (by decide)⟩

/-- Reading a just-written cell of an arena. -/
theorem getD_set_self {α : Type} (l : List α) (i : Nat) (x d : α)
    (h : i < l.length) : (l.set i x).getD i d = x := by
  rw [List.getD_eq_getElem _ _ (by simpa using h)]
  simp [List.getElem_set]

/-- Reading any other cell of an arena after a write. -/
theorem getD_set_ne {α : Type} (l : List α) {i j : Nat} (x d : α)
    (h : i ≠ j) : (l.set i x).getD j d = l.getD j d := by
  rcases Nat.lt_or_ge j l.length with hj | hj
  · rw [List.getD_eq_getElem _ _ (by simpa using hj),
      List.getD_eq_getElem _ _ hj]
    simp [List.getElem_set, h]
  · rw [List.getD_eq_default _ _ (by simpa using hj),
      List.getD_eq_default _ _ hj]

/-- Claim C4: for an `Active` agreement, `releaseToLender` called by the
lender at `now >= endTime` (with the external transfers succeeding) pays
`rentalAmount - floor(rentalAmount * feeBps / 10000)` to the lender and
`securityDeposit` to the borrower, accrues the fee to the fee pool, and
sets the state to `Completed`; called before `endTime` it fails with
`RentalNotEnded` and changes nothing. -/
theorem releaseToLender_spec :
    (∀ (s : Ledger) (caller now escrowId : Nat) (xfer : Nat → Nat → Bool),
      escrowId < s.escrows.length →
      caller = (s.escrows.getD escrowId default).lender →
      (s.escrows.getD escrowId default).state = .Active →
      (s.escrows.getD escrowId default).endTime ≤ now →
      xfer (s.escrows.getD escrowId default).lender
        ((s.escrows.getD escrowId default).rentalAmount -
          fee (s.escrows.getD escrowId default).rentalAmount
            s.platformFeePercentage) = true →
      xfer (s.escrows.getD escrowId default).borrower
        (s.escrows.getD escrowId default).securityDeposit = true →
      releaseToLender s caller now escrowId xfer =
        .ok ({ s with
                escrows := s.escrows.set escrowId
                  { s.escrows.getD escrowId default with state := .Completed }
                collectedFees := s.collectedFees +
                  fee (s.escrows.getD escrowId default).rentalAmount
                    s.platformFeePercentage
                balance := s.balance -
                  (((s.escrows.getD escrowId default).rentalAmount -
                    fee (s.escrows.getD escrowId default).rentalAmount
                      s.platformFeePercentage) +
                   (s.escrows.getD escrowId default).securityDeposit)
                custody := s.custody.set escrowId 0 },
             [((s.escrows.getD escrowId default).lender,
                (s.escrows.getD escrowId default).rentalAmount -
                  fee (s.escrows.getD escrowId default).rentalAmount
                    s.platformFeePercentage),
              ((s.escrows.getD escrowId default).borrower,
                (s.escrows.getD escrowId default).securityDeposit)])) ∧
    (∀ (v : Nat → Bool) (s : Ledger) (caller now escrowId : Nat)
       (xfer : Nat → Nat → Bool),
      escrowId < s.escrows.length →
      caller = (s.escrows.getD escrowId default).lender →
      (s.escrows.getD escrowId default).state = .Active →
      now < (s.escrows.getD escrowId default).endTime →
      releaseToLender s caller now escrowId xfer = .error .rentalNotEnded ∧
      applyOp v s (.releaseToLender caller now escrowId xfer) = s) := by
  constructor
  · intro s caller now escrowId xfer hlt hcaller hstate htime hx1 hx2
    simp only [releaseToLender]
    rw [if_neg (by omega), if_neg (not_ne_iff.mpr hcaller),
      if_neg (not_ne_iff.mpr hstate), if_neg (by omega),
      if_neg (not_not_intro hx1), if_neg (not_not_intro hx2)]
  · intro v s caller now escrowId xfer hlt hcaller hstate htime
    have herr : releaseToLender s caller now escrowId xfer =
        .error .rentalNotEnded := by
      simp only [releaseToLender]
      rw [if_neg (by omega), if_neg (not_ne_iff.mpr hcaller),
        if_neg (not_ne_iff.mpr hstate), if_pos htime]
    exact ⟨herr, applyOp_of_error herr⟩

/-- Witness for C4: the spec's concrete scenario - rental 1000000, deposit
500000, fee 250 bps: the lender receives 975000, the borrower 500000, the
fee pool accrues 25000, the state becomes `Completed`; a call at time 1000
(before `endTime = 86400`) fails with `RentalNotEnded` and leaves the
ledger unchanged. -/
theorem releaseToLender_spec_witness :
    releaseToLender demoActive 3 86400 0 allOk =
      .ok ({ demoActive with
              escrows := demoActive.escrows.set 0
                { demoActive.escrows.getD 0 default with state := .Completed }
              collectedFees := 25000
              balance := 25000
              custody := [0] },
           [(3, 975000), (2, 500000)]) ∧
    releaseToLender demoActive 3 1000 0 allOk = .error .rentalNotEnded ∧
    applyOp vAll demoActive (.releaseToLender 3 1000 0 allOk) = demoActive := by
  refine ⟨?_, ?_, ?_⟩
  · have h := releaseToLender_spec.1 demoActive 3 86400 0 allOk
      (by decide) (by decide) (by decide) (by decide) (by decide) (by decide)
    rw [h]
    decide
  · exact (releaseToLender_spec.2 vAll demoActive 3 1000 0 allOk
      (by decide) (by decide) (by decide) (by decide)).1
  · exact (releaseToLender_spec.2 vAll demoActive 3 1000 0 allOk
      (by decide) (by decide) (by decide) (by decide)).2

/-- Equation for a successful `deposit`, used in both directions of the
deposit claim. -/
theorem deposit_ok_eq (s : Ledger) (caller value escrowId : Nat)
    (hlt : escrowId < s.escrows.length)
    (hstate : (s.escrows.getD escrowId default).state = .Created)
    (hc : caller = (s.escrows.getD escrowId default).borrower)
    (hv : value = (s.escrows.getD escrowId default).rentalAmount +
      (s.escrows.getD escrowId default).securityDeposit) :
    deposit s caller value escrowId =
      .ok ({ s with
              escrows := s.escrows.set escrowId
                { s.escrows.getD escrowId default with state := .Deposited }
              balance := s.balance + value
              custody := s.custody.set escrowId
                (s.custody.getD escrowId 0 + value) }, []) := by
  simp only [deposit]
  rw [if_neg (by omega), if_neg (not_ne_iff.mpr hc),
    if_neg (not_ne_iff.mpr hstate), if_neg (not_ne_iff.mpr hv)]

/-- Claim C5: for an agreement in state `Created`, `deposit` succeeds
exactly when the caller is the borrower and the paid amount equals
`rentalAmount + securityDeposit` exactly; a borrower paying any other
amount fails with `InsufficientDeposit` and the ledger (state `Created`
included) is unchanged; on success the state becomes `Deposited` and the
agreement's custody holds the amount. -/
theorem deposit_spec :
    (∀ (s : Ledger) (caller value escrowId : Nat),
      escrowId < s.escrows.length →
      (s.escrows.getD escrowId default).state = .Created →
      ((∃ p, deposit s caller value escrowId = .ok p) ↔
        caller = (s.escrows.getD escrowId default).borrower ∧
        value = (s.escrows.getD escrowId default).rentalAmount +
          (s.escrows.getD escrowId default).securityDeposit)) ∧
    (∀ (s : Ledger) (caller value escrowId : Nat),
      escrowId < s.escrows.length →
      (s.escrows.getD escrowId default).state = .Created →
      caller = (s.escrows.getD escrowId default).borrower →
      value = (s.escrows.getD escrowId default).rentalAmount +
        (s.escrows.getD escrowId default).securityDeposit →
      deposit s caller value escrowId =
        .ok ({ s with
                escrows := s.escrows.set escrowId
                  { s.escrows.getD escrowId default with state := .Deposited }
                balance := s.balance + value
                custody := s.custody.set escrowId
                  (s.custody.getD escrowId 0 + value) }, [])) ∧
    (∀ (v : Nat → Bool) (s : Ledger) (caller value escrowId : Nat),
      escrowId < s.escrows.length →
      (s.escrows.getD escrowId default).state = .Created →
      caller = (s.escrows.getD escrowId default).borrower →
      value ≠ (s.escrows.getD escrowId default).rentalAmount +
        (s.escrows.getD escrowId default).securityDeposit →
      deposit s caller value escrowId = .error .insufficientDeposit ∧
      applyOp v s (.deposit caller value escrowId) = s) ∧
    (∀ (s : Ledger) (caller value escrowId : Nat)
       (p : Ledger × List Transfer),
      Inv s →
      deposit s caller value escrowId = .ok p →
      p.1.custody.getD escrowId 0 = value ∧
      (p.1.escrows.getD escrowId default).state = .Deposited) := by
  refine ⟨?_, ?_, ?_, ?_⟩
  · intro s caller value escrowId hlt hstate
    constructor
    · rintro ⟨⟨s', out⟩, hp⟩
      obtain ⟨-, hc, -, hv, -, -⟩ := deposit_ok_inv hp
      exact ⟨hc, hv⟩
    · rintro ⟨hc, hv⟩
      exact ⟨_, deposit_ok_eq s caller value escrowId hlt hstate hc hv⟩
  · intro s caller value escrowId hlt hstate hc hv
    exact deposit_ok_eq s caller value escrowId hlt hstate hc hv
  · intro v s caller value escrowId hlt hstate hc hv
    have herr : deposit s caller value escrowId =
        .error .insufficientDeposit := by
      simp only [deposit]
      rw [if_neg (by omega), if_neg (not_ne_iff.mpr hc),
        if_neg (not_ne_iff.mpr hstate), if_pos hv]
    exact ⟨herr, applyOp_of_error herr⟩
  · intro s caller value escrowId p hInv hp
    obtain ⟨s', out⟩ := p
    obtain ⟨hlt, -, hstate, -, hs, -⟩ := deposit_ok_inv hp
    subst hs
    have hclen : escrowId < s.custody.length := by rw [hInv.1]; exact hlt
    constructor
    · show (s.custody.set escrowId
        (s.custody.getD escrowId 0 + value)).getD escrowId 0 = value
      rw [getD_set_self _ _ _ _ hclen, hInv.2 escrowId hlt]
      simp only [expectedCustody]
      rw [hstate]
      simp
    · show ((s.escrows.set escrowId
        { s.escrows.getD escrowId default with
            state := .Deposited }).getD escrowId default).state = .Deposited
      rw [getD_set_self _ _ _ _ hlt]

/-- Witness for C5 on the spec's scenario 2: the correct total 1500000
succeeds and puts 1500000 in custody with state `Deposited`; the wrong
total 1400000 fails with `InsufficientDeposit` leaving the ledger (state
`Created`) unchanged. -/
theorem deposit_spec_witness :
    deposit demoCreated 2 1500000 0 =
      .ok ({ demoCreated with
              escrows := demoCreated.escrows.set 0
                { demoCreated.escrows.getD 0 default with state := .Deposited }
              balance := 1500000
              custody := [1500000] }, []) ∧
    deposit demoCreated 2 1400000 0 = .error .insufficientDeposit ∧
    applyOp vAll demoCreated (.deposit 2 1400000 0) = demoCreated ∧
    ({ demoCreated with
        escrows := demoCreated.escrows.set 0
          { demoCreated.escrows.getD 0 default with state := .Deposited }
        balance := 1500000
        custody := [1500000] } : Ledger).custody.getD 0 0 = 1500000 := by
  have hok := deposit_spec.2.1 demoCreated 2 1500000 0
    (by decide) (by decide) (by decide) (by decide)
  have herr := deposit_spec.2.2.1 vAll demoCreated 2 1400000 0
    (by decide) (by decide) (by decide) (by decide)
  have hcust := deposit_spec.2.2.2 demoCreated 2 1500000 0 _
    (by decide) hok
  refine ⟨?_, herr.1, herr.2, ?_⟩
  · rw [hok]; decide
  · have := hcust.1
    revert this
    decide

/-- Equation for a successful `raiseDispute`. -/
theorem raiseDispute_ok_eq (s : Ledger) (caller now escrowId : Nat)
    (reason : String)
    (hlt : escrowId < s.escrows.length)
    (hparty : caller = (s.escrows.getD escrowId default).borrower ∨
      caller = (s.escrows.getD escrowId default).lender)
    (hstate : (s.escrows.getD escrowId default).state = .Active)
    (hnow : now ≤ (s.escrows.getD escrowId default).endTime +
      DISPUTE_TIMEOUT) :
    raiseDispute s caller now escrowId reason =
      .ok ({ s with
              escrows := s.escrows.set escrowId
                { s.escrows.getD escrowId default with
                    state := .Disputed } }, []) := by
  simp only [raiseDispute]
  rw [if_neg (by omega),
    if_neg (fun hc => hparty.elim (fun h => hc.1 h) (fun h => hc.2 h)),
    if_neg (not_ne_iff.mpr hstate), if_neg (by omega)]

/-- Counterexample to C7 as stated: `raiseDispute` succeeds with an EMPTY
reason (the contract never inspects `reason`), on the concrete active
scenario with every other precondition satisfied. -/
theorem raiseDispute_claim_counterexample :
    raiseDispute demoActive 2 86400 0 "" =
      .ok ({ demoActive with
              escrows := demoActive.escrows.set 0
                { demoActive.escrows.getD 0 default with
                    state := .Disputed } }, []) ∧
    ("" : String).length = 0 := by
  constructor
  · decide
  · rfl

/-- Claim C7 (amended: the contract does NOT validate `reason` - empty or
arbitrarily long reasons are accepted): `raiseDispute` succeeds exactly
when the caller is the borrower or the lender, the state is `Active`, and
`now <= endTime + DISPUTE_TIMEOUT`; at `endTime + DISPUTE_TIMEOUT + 1` it
fails with `DisputeTimeoutExceeded` and changes nothing; on success the
state becomes `Disputed` and no funds move. -/
theorem raiseDispute_spec :
    (∀ (s : Ledger) (caller now escrowId : Nat) (reason : String),
      escrowId < s.escrows.length →
      ((∃ p, raiseDispute s caller now escrowId reason = .ok p) ↔
        (caller = (s.escrows.getD escrowId default).borrower ∨
         caller = (s.escrows.getD escrowId default).lender) ∧
        (s.escrows.getD escrowId default).state = .Active ∧
        now ≤ (s.escrows.getD escrowId default).endTime +
          DISPUTE_TIMEOUT)) ∧
    (∀ (s : Ledger) (caller now escrowId : Nat) (reason : String),
      escrowId < s.escrows.length →
      (caller = (s.escrows.getD escrowId default).borrower ∨
       caller = (s.escrows.getD escrowId default).lender) →
      (s.escrows.getD escrowId default).state = .Active →
      now ≤ (s.escrows.getD escrowId default).endTime + DISPUTE_TIMEOUT →
      raiseDispute s caller now escrowId reason =
        .ok ({ s with
                escrows := s.escrows.set escrowId
                  { s.escrows.getD escrowId default with
                      state := .Disputed } }, [])) ∧
    (∀ (v : Nat → Bool) (s : Ledger) (caller escrowId : Nat)
       (reason : String),
      escrowId < s.escrows.length →
      (caller = (s.escrows.getD escrowId default).borrower ∨
       caller = (s.escrows.getD escrowId default).lender) →
      (s.escrows.getD escrowId default).state = .Active →
      raiseDispute s caller
          ((s.escrows.getD escrowId default).endTime + DISPUTE_TIMEOUT + 1)
          escrowId reason = .error .disputeTimeoutExceeded ∧
      applyOp v s (.raiseDispute caller
          ((s.escrows.getD escrowId default).endTime + DISPUTE_TIMEOUT + 1)
          escrowId reason) = s) := by
  refine ⟨?_, ?_, ?_⟩
  · intro s caller now escrowId reason hlt
    constructor
    · rintro ⟨⟨s', out⟩, hp⟩
      obtain ⟨-, hparty, hstate, hnow, -, -⟩ := raiseDispute_ok_inv hp
      exact ⟨hparty, hstate, hnow⟩
    · rintro ⟨hparty, hstate, hnow⟩
      exact ⟨_, raiseDispute_ok_eq s caller now escrowId reason hlt hparty
        hstate hnow⟩
  · intro s caller now escrowId reason hlt hparty hstate hnow
    exact raiseDispute_ok_eq s caller now escrowId reason hlt hparty
      hstate hnow
  · intro v s caller escrowId reason hlt hparty hstate
    have herr : raiseDispute s caller
        ((s.escrows.getD escrowId default).endTime + DISPUTE_TIMEOUT + 1)
        escrowId reason = .error .disputeTimeoutExceeded := by
      simp only [raiseDispute]
      rw [if_neg (by omega),
        if_neg (fun hc => hparty.elim (fun h => hc.1 h) (fun h => hc.2 h)),
        if_neg (not_ne_iff.mpr hstate), if_pos (by omega)]
    exact ⟨herr, applyOp_of_error herr⟩

/-- Witness for the amended C7: on the concrete active scenario, a dispute
raised at `endTime` succeeds into `Disputed` with no transfers, and one
raised at `endTime + DISPUTE_TIMEOUT + 1 = 692401` fails with
`DisputeTimeoutExceeded` leaving the ledger unchanged. -/
theorem raiseDispute_spec_witness :
    raiseDispute demoActive 2 86400 0 "item damaged" =
      .ok ({ demoActive with
              escrows := demoActive.escrows.set 0
                { demoActive.escrows.getD 0 default with
                    state := .Disputed } }, []) ∧
    raiseDispute demoActive 2 692401 0 "item damaged" =
      .error .disputeTimeoutExceeded ∧
    applyOp vAll demoActive (.raiseDispute 2 692401 0 "item damaged") =
      demoActive := by
  have hok := raiseDispute_spec.2.1 demoActive 2 86400 0 "item damaged"
    (by decide) (by decide) (by decide) (by decide)
  have herr := raiseDispute_spec.2.2 vAll demoActive 2 0 "item damaged"
    (by decide) (by decide) (by decide)
  exact ⟨hok, herr.1, herr.2⟩

/-- Pushing an id under a user makes it appear in that user's index. -/
theorem mem_lookupUser_pushUser_self (m : List (Nat × List Nat))
    (u id : Nat) : id ∈ lookupUser (pushUser m u id) u := by
  induction m with
  | nil => simp [pushUser, lookupUser]
  | cons kv rest ih =>
    obtain ⟨k, l⟩ := kv
    by_cases hk : k = u
    · subst hk
      simp [pushUser, lookupUser]
    · simp [pushUser, lookupUser, hk, ih]

/-- Pushing an id under any user preserves the other entries of the
index. -/
theorem mem_lookupUser_pushUser_mono (m : List (Nat × List Nat))
    (u u' x y : Nat) (h : x ∈ lookupUser m u) :
    x ∈ lookupUser (pushUser m u' y) u := by
  induction m with
  | nil => simp [lookupUser] at h
  | cons kv rest ih =>
    obtain ⟨k, l⟩ := kv
    by_cases hku' : k = u'
    · subst hku'
      by_cases hku : k = u
      · subst hku
        simp only [lookupUser, if_pos rfl] at h
        simp only [pushUser, if_pos rfl, lookupUser]
        exact List.mem_append_left _ h
      · simp only [lookupUser, if_neg hku] at h
        simp only [pushUser, if_pos rfl, lookupUser, if_neg hku]
        exact h
    · by_cases hku : k = u
      · subst hku
        simp only [lookupUser, if_pos rfl] at h
        simp only [pushUser, if_neg hku', lookupUser, if_pos rfl]
        exact h
      · simp only [lookupUser, if_neg hku] at h
        simp only [pushUser, if_neg hku', lookupUser, if_neg hku]
        exact ih h

/-- Equation for a successful `createEscrow`. -/
theorem createEscrow_ok_eq (v : Nat → Bool) (s : Ledger)
    (caller now lender ra sd du : Nat) (desc : String)
    (hvc : v caller = true) (hpause : s.paused = false)
    (h0 : lender ≠ 0) (hne : lender ≠ caller) (hvl : v lender = true)
    (hra : 0 < ra)
    (hmin : MIN_RENTAL_DURATION ≤ du) (hmax : du ≤ MAX_RENTAL_DURATION) :
    createEscrow v s caller now lender ra sd du desc =
      .ok ({ s with
              escrows := s.escrows ++
                [{ borrower := caller, lender := lender, rentalAmount := ra,
                   securityDeposit := sd, startTime := now,
                   endTime := now + du, createdAt := now, state := .Created,
                   itemDescription := desc, lenderConfirmed := false,
                   borrowerConfirmed := false }]
              custody := s.custody ++ [0]
              userEscrows := pushUser (pushUser s.userEscrows caller
                s.escrows.length) lender s.escrows.length }, []) := by
  simp only [createEscrow]
  rw [if_neg (not_not_intro (by simp [hvc])),
    if_neg (by simp [hpause]),
    if_neg (not_or.mpr ⟨h0, hne⟩),
    if_neg (not_not_intro (by simp [hvl])),
    if_neg (Nat.pos_iff_ne_zero.mp hra),
    if_neg (not_or.mpr ⟨by omega, by omega⟩)]

/-- Counterexample to C6 as stated: `createEscrow` succeeds with an EMPTY
item description (the contract never validates `itemDescription`), with
every other precondition satisfied. -/
theorem createEscrow_claim_counterexample :
    createEscrow vAll (initialLedger 1) 2 0 3 1000 500 3600 "" =
      .ok ({ initialLedger 1 with
              escrows :=
                [{ borrower := 2, lender := 3, rentalAmount := 1000,
                   securityDeposit := 500, startTime := 0, endTime := 3600,
                   createdAt := 0, state := .Created, itemDescription := "",
                   lenderConfirmed := false, borrowerConfirmed := false }]
              custody := [0]
              userEscrows := [(2, [0]), (3, [0])] }, []) ∧
    ("" : String).length = 0 := by
  constructor
  · decide
  · rfl

/-- Claim C6 (amended: the item description is NOT validated - empty or
arbitrarily long descriptions are accepted - and two preconditions the
claim omits are required: the contract must not be paused and the lender
must not be the zero address): `createEscrow` succeeds exactly when the
caller and the lender are verified, the lender is neither zero nor the
caller, `rentalAmount > 0` and the duration is within
`[MIN_RENTAL_DURATION, MAX_RENTAL_DURATION]`; on success it appends a new
agreement in state `Created` with `startTime = now` and
`endTime = now + duration`, indexed under both parties. -/
theorem createEscrow_spec :
    (∀ (v : Nat → Bool) (s : Ledger) (caller now lender ra sd du : Nat)
       (desc : String),
      s.paused = false →
      ((∃ p, createEscrow v s caller now lender ra sd du desc = .ok p) ↔
        v caller = true ∧ lender ≠ 0 ∧ lender ≠ caller ∧
        v lender = true ∧ 0 < ra ∧
        MIN_RENTAL_DURATION ≤ du ∧ du ≤ MAX_RENTAL_DURATION)) ∧
    (∀ (v : Nat → Bool) (s : Ledger) (caller now lender ra sd du : Nat)
       (desc : String) (s' : Ledger) (out : List Transfer),
      createEscrow v s caller now lender ra sd du desc = .ok (s', out) →
      s'.escrows.length = s.escrows.length + 1 ∧
      s'.escrows.getD s.escrows.length default =
        { borrower := caller, lender := lender, rentalAmount := ra,
          securityDeposit := sd, startTime := now, endTime := now + du,
          createdAt := now, state := .Created, itemDescription := desc,
          lenderConfirmed := false, borrowerConfirmed := false } ∧
      s.escrows.length ∈ lookupUser s'.userEscrows caller ∧
      s.escrows.length ∈ lookupUser s'.userEscrows lender) := by
  constructor
  · intro v s caller now lender ra sd du desc hpause
    constructor
    · rintro ⟨⟨s', out⟩, hp⟩
      obtain ⟨h1, -, h3, h4, h5, h6, h7, h8, -, -⟩ := createEscrow_ok_inv hp
      exact ⟨h1, h3, h4, h5, Nat.pos_of_ne_zero h6, h7, h8⟩
    · rintro ⟨h1, h3, h4, h5, h6, h7, h8⟩
      exact ⟨_, createEscrow_ok_eq v s caller now lender ra sd du desc
        h1 hpause h3 h4 h5 h6 h7 h8⟩
  · intro v s caller now lender ra sd du desc s' out hp
    obtain ⟨-, -, -, hne, -, -, -, -, hs, -⟩ := createEscrow_ok_inv hp
    subst hs
    refine ⟨by simp, ?_, ?_, ?_⟩
    · rw [List.getD_append_right _ _ _ _ (Nat.le_refl _)]
      simp
    · exact mem_lookupUser_pushUser_mono _ caller lender _ _
        (mem_lookupUser_pushUser_self _ caller _)
    · exact mem_lookupUser_pushUser_self _ lender _

/-- Witness for the amended C6 at the concrete scenario: creation succeeds
with a description, yields a `Created` agreement with
`startTime = 0`, `endTime = 86400`, and the new id 0 appears in both
parties' indexes; and the success-iff holds at a concrete failing input
(duration 60 below the minimum is rejected). -/
theorem createEscrow_spec_witness :
    (∃ p, createEscrow vAll (initialLedger 1) 2 0 3 1000000 500000 86400
      "bike" = .ok p) ∧
    demoCreated.escrows.getD 0 default =
      { borrower := 2, lender := 3, rentalAmount := 1000000,
        securityDeposit := 500000, startTime := 0, endTime := 86400,
        createdAt := 0, state := .Created, itemDescription := "bike",
        lenderConfirmed := false, borrowerConfirmed := false } ∧
    0 ∈ lookupUser demoCreated.userEscrows 2 ∧
    0 ∈ lookupUser demoCreated.userEscrows 3 ∧
    ¬ (∃ p, createEscrow vAll (initialLedger 1) 2 0 3 1000000 500000 60
      "bike" = .ok p) := by
  have hiff := createEscrow_spec.1 vAll (initialLedger 1) 2 0 3 1000000
    500000 86400 "bike" (by decide)
  have hok := hiff.mpr (by refine ⟨rfl, ?_, ?_, rfl, ?_, ?_, ?_⟩ <;> decide)
  obtain ⟨p, hp⟩ := hok
  have hres := createEscrow_spec.2 vAll (initialLedger 1) 2 0 3 1000000
    500000 86400 "bike" p.1 p.2 (by rw [← hp])
  have hbad := (createEscrow_spec.1 vAll (initialLedger 1) 2 0 3 1000000
    500000 60 "bike" (by decide))
  refine ⟨⟨p, hp⟩, ?_, ?_, ?_, ?_⟩
  · decide
  · decide
  · decide
  · intro hex
    have := hbad.mp hex
    revert this
    decide

/-- Counterexample to C8 as stated: `getUserEscrows` on an address with no
escrows returns the empty array successfully - it does NOT return
`EscrowNotFound` (the function body has no error path at all). -/
theorem getUserEscrows_claim_counterexample :
    getUserEscrows (initialLedger 1) 99 = .ok [] ∧
    getUserEscrows (initialLedger 1) 99 ≠ .error .escrowNotFound := by
  constructor
  · rfl
  · decide

/-- Claim C8 (amended: only `getEscrow` reports `EscrowNotFound` for an
absent id; `getUserEscrows` never errors and returns the stored - possibly
empty - array): both views are read-only (the ledger after a view
transaction is exactly the ledger before), `getEscrow` returns
`EscrowNotFound` exactly when the id is not below the escrow counter, and
`getUserEscrows` always succeeds. -/
theorem views_spec :
    (∀ (v : Nat → Bool) (s : Ledger) (escrowId : Nat),
      applyOp v s (.getEscrowView escrowId) = s) ∧
    (∀ (v : Nat → Bool) (s : Ledger) (user : Nat),
      applyOp v s (.getUserEscrowsView user) = s) ∧
    (∀ (s : Ledger) (escrowId : Nat),
      getEscrow s escrowId = .error .escrowNotFound ↔
        s.escrows.length ≤ escrowId) ∧
    (∀ (s : Ledger) (escrowId : Nat),
      escrowId < s.escrows.length →
      getEscrow s escrowId = .ok (s.escrows.getD escrowId default)) ∧
    (∀ (s : Ledger) (user : Nat),
      getUserEscrows s user = .ok (lookupUser s.userEscrows user)) := by
  refine ⟨?_, ?_, ?_, ?_, ?_⟩
  · intro v s escrowId
    by_cases h : escrowId ≥ s.escrows.length
    · simp [applyOp, stepOp, getEscrow, h, Except.map]
    · simp [applyOp, stepOp, getEscrow, h, Except.map]
  · intro v s user
    simp [applyOp, stepOp, getUserEscrows, Except.map]
  · intro s escrowId
    constructor
    · intro h
      by_contra hlt
      push_neg at hlt
      have h' : ¬ (escrowId ≥ s.escrows.length) := by omega
      simp only [getEscrow, if_neg h'] at h
      exact Except.noConfusion h
    · intro h
      have h' : escrowId ≥ s.escrows.length := h
      simp only [getEscrow, if_pos h']
  · intro s escrowId h
    have h' : ¬ (escrowId ≥ s.escrows.length) := by omega
    simp only [getEscrow, if_neg h']
  · intro s user
    rfl

/-- Witness for the amended C8: on the concrete scenario neither view call
changes the ledger; `getEscrow 0` returns the agreement, `getEscrow 5`
returns `EscrowNotFound`; `getUserEscrows` succeeds for a party and for a
stranger. -/
theorem views_spec_witness :
    applyOp vAll demoActive (.getEscrowView 0) = demoActive ∧
    applyOp vAll demoActive (.getUserEscrowsView 2) = demoActive ∧
    getEscrow demoActive 0 = .ok (demoActive.escrows.getD 0 default) ∧
    getEscrow demoActive 5 = .error .escrowNotFound ∧
    getUserEscrows demoActive 2 = .ok (lookupUser demoActive.userEscrows 2) :=
  ⟨views_spec.1 vAll demoActive 0,
   views_spec.2.1 vAll demoActive 2,
   views_spec.2.2.2.1 demoActive 0 (by decide),
   (views_spec.2.2.1 demoActive 5).mpr (by decide),
   views_spec.2.2.2.2 demoActive 2⟩

/-- Claim C10: a successful `emergencyWithdraw` requires the owner as
caller and the contract paused; it transfers the ENTIRE contract balance -
including custody of agreements still in `Deposited` or `Active` - to the
owner (custody of every agreement drops to zero), while every agreement
record and the recorded `collectedFees` counter are unchanged. -/
theorem emergencyWithdraw_frame (s : Ledger) (caller : Nat)
    (xfer : Nat → Nat → Bool) (s' : Ledger) (out : List Transfer)
    (h : emergencyWithdraw s caller xfer = .ok (s', out)) :
    caller = s.owner ∧ s.paused = true ∧
    out = [(s.owner, s.balance)] ∧
    s'.balance = 0 ∧
    (∀ i, s'.custody.getD i 0 = 0) ∧
    s'.escrows = s.escrows ∧
    s'.userEscrows = s.userEscrows ∧
    s'.collectedFees = s.collectedFees ∧
    s'.platformFeePercentage = s.platformFeePercentage ∧
    s'.owner = s.owner ∧ s'.paused = s.paused := by
  obtain ⟨hc, hp, hs, hout⟩ := emergencyWithdraw_ok_inv h
  subst hs
  refine ⟨hc, hp, hout, rfl, ?_, rfl, rfl, rfl, rfl, rfl, rfl⟩
  intro i
  show (s.custody.map (fun _ => 0)).getD i 0 = 0
  rcases Nat.lt_or_ge i s.custody.length with hi | hi
  · rw [List.getD_eq_getElem _ _ (by simpa using hi)]
    simp
  · rw [List.getD_eq_default _ _ (by simpa using hi)]

/-- Witness for C10: on the paused concrete scenario (one `Active`
agreement custodying 1500000), `emergencyWithdraw` sends the whole
1500000 balance to owner 1 while the agreement stays `Active` and the fee
counter stays 0. -/
theorem emergencyWithdraw_frame_witness :
    emergencyWithdraw demoPaused 1 allOk =
      .ok ({ demoPaused with balance := 0, custody := [0] },
           [(1, 1500000)]) ∧
    demoPaused.paused = true ∧
    (demoActive.escrows.getD 0 default).state = .Active ∧
    ({ demoPaused with balance := 0, custody := [0] } : Ledger).escrows =
      demoPaused.escrows ∧
    ({ demoPaused with balance := 0, custody := [0] } : Ledger).collectedFees
      = demoPaused.collectedFees := by
  have hstep : emergencyWithdraw demoPaused 1 allOk =
      .ok ({ demoPaused with balance := 0, custody := [0] },
           [(1, 1500000)]) := by decide
  have h := emergencyWithdraw_frame demoPaused 1 allOk
    ({ demoPaused with balance := 0, custody := [0] }) [(1, 1500000)] hstep
  exact ⟨hstep, h.2.1, by decide, h.2.2.2.2.2.1, h.2.2.2.2.2.2.2.1⟩

/-- The concrete scenario after a dispute is raised on the active
agreement: funds stay in the contract. -/
def demoDisputed : Ledger :=
  applyOps vAll demoActive [.raiseDispute 2 86400 0 "broken"]

/-- The concrete scenario after the owner pauses and drains the contract
while the agreement is still `Active`. -/
def demoDrained : Ledger :=
  applyOps vAll demoPaused [.emergencyWithdraw 1 allOk]

/-- Counterexample to C1 as stated, at two concrete points: after
`raiseDispute` the agreement is `Disputed` (not in the claim's
`{Deposited, Active}` set) yet the ledger still custodies 1500000, not
zero; and after `pause; emergencyWithdraw` the agreement is still `Active`
yet its custody is zero, not 1500000.  Both reachable states violate the
claimed invariant. -/
theorem custody_claim_counterexample :
    (demoDisputed.escrows.getD 0 default).state = .Disputed ∧
    demoDisputed.custody.getD 0 0 = 1500000 ∧
    claimedCustody (demoDisputed.escrows.getD 0 default) = 0 ∧
    ¬ ClaimInv demoDisputed ∧
    (demoDrained.escrows.getD 0 default).state = .Active ∧
    demoDrained.custody.getD 0 0 = 0 ∧
    claimedCustody (demoDrained.escrows.getD 0 default) = 1500000 ∧
    ¬ ClaimInv demoDrained := by
  decide

/-- Claim C1 (amended in the two ways the code forces: custody is
`rentalAmount + securityDeposit` in states `Deposited`, `Active` AND
`Disputed` - a dispute freezes the funds in the contract - and zero in the
other states; and the invariant is only preserved by operation sequences
that never call `emergencyWithdraw`, which drains custody while leaving
states untouched): the invariant holds initially and is preserved by every
operation other than `emergencyWithdraw`, hence at every observable point
of every `emergencyWithdraw`-free sequence. -/
theorem custody_invariant :
    (∀ d : Nat, Inv (initialLedger d)) ∧
    (∀ (v : Nat → Bool) (s : Ledger) (op : Op),
      isEmergencyWithdraw op = false → Inv s → Inv (applyOp v s op)) := by
  constructor
  · intro d
    exact ⟨rfl, fun i hi => absurd hi (by simp [initialLedger])⟩
  · intro v s op hew hInv
    cases hstep : stepOp v s op with
    | error e => rw [applyOp_of_error hstep]; exact hInv
    | ok p =>
      obtain ⟨s', out⟩ := p
      rw [applyOp_of_ok hstep]
      cases op with
      | createEscrow caller now lender ra sd du desc =>
        obtain ⟨-, -, -, -, -, -, -, -, hs, -⟩ := createEscrow_ok_inv hstep
        subst hs
        constructor
        · show (s.custody ++ [0]).length = (s.escrows ++ [_]).length
          simp [hInv.1]
        · intro i hi
          show (s.custody ++ [0]).getD i 0 =
            expectedCustody ((s.escrows ++ [_]).getD i default)
          have hi' : i < s.escrows.length + 1 := by
            simpa using hi
          rcases Nat.lt_or_ge i s.escrows.length with hlt | hge
          · rw [List.getD_append _ _ _ _ (by rw [hInv.1]; exact hlt),
              List.getD_append _ _ _ _ hlt]
            exact hInv.2 i hlt
          · have hieq : i = s.escrows.length := by omega
            subst hieq
            rw [List.getD_append_right _ _ _ _ (by rw [hInv.1]),
              List.getD_append_right _ _ _ _ (Nat.le_refl _), hInv.1]
            simp [expectedCustody]
      | deposit caller value escrowId =>
        obtain ⟨hlt, -, hstate, hv, hs, -⟩ := deposit_ok_inv hstep
        subst hs
        constructor
        · show (s.custody.set escrowId _).length = (s.escrows.set _ _).length
          simp [hInv.1]
        · intro i hi
          show (s.custody.set escrowId (s.custody.getD escrowId 0 + value)).getD i 0 =
            expectedCustody ((s.escrows.set escrowId _).getD i default)
          have hi' : i < s.escrows.length := by simpa using hi
          rcases eq_or_ne escrowId i with heq | hne
          · subst heq
            rw [getD_set_self _ _ _ _ (by rw [hInv.1]; exact hlt),
              getD_set_self _ _ _ _ hlt, hInv.2 escrowId hlt]
            simp only [expectedCustody]
            rw [hstate]
            simp [hv]
          · rw [getD_set_ne _ _ _ hne, getD_set_ne _ _ _ hne]
            exact hInv.2 i hi'
      | activateRental caller escrowId =>
        obtain ⟨hlt, -, hstate, hs, -⟩ := activateRental_ok_inv hstep
        subst hs
        constructor
        · show s.custody.length = (s.escrows.set _ _).length
          simp [hInv.1]
        · intro i hi
          show s.custody.getD i 0 =
            expectedCustody ((s.escrows.set escrowId _).getD i default)
          have hi' : i < s.escrows.length := by simpa using hi
          rcases eq_or_ne escrowId i with heq | hne
          · subst heq
            rw [getD_set_self _ _ _ _ hlt, hInv.2 escrowId hlt]
            simp only [expectedCustody]
            rw [hstate]
            simp
          · rw [getD_set_ne _ _ _ hne]
            exact hInv.2 i hi'
      | releaseToLender caller now escrowId xfer =>
        obtain ⟨hlt, -, hstate, -, hs, -⟩ := releaseToLender_ok_inv hstep
        subst hs
        constructor
        · show (s.custody.set escrowId 0).length = (s.escrows.set _ _).length
          simp [hInv.1]
        · intro i hi
          show (s.custody.set escrowId 0).getD i 0 =
            expectedCustody ((s.escrows.set escrowId _).getD i default)
          have hi' : i < s.escrows.length := by simpa using hi
          rcases eq_or_ne escrowId i with heq | hne
          · subst heq
            rw [getD_set_self _ _ _ _ (by rw [hInv.1]; exact hlt),
              getD_set_self _ _ _ _ hlt]
            simp [expectedCustody]
          · rw [getD_set_ne _ _ _ hne, getD_set_ne _ _ _ hne]
            exact hInv.2 i hi'
      | raiseDispute caller now escrowId reason =>
        obtain ⟨hlt, -, hstate, -, hs, -⟩ :=
          @raiseDispute_ok_inv s caller now escrowId reason s' out hstep
        subst hs
        constructor
        · show s.custody.length = (s.escrows.set _ _).length
          simp [hInv.1]
        · intro i hi
          show s.custody.getD i 0 =
            expectedCustody ((s.escrows.set escrowId _).getD i default)
          have hi' : i < s.escrows.length := by simpa using hi
          rcases eq_or_ne escrowId i with heq | hne
          · subst heq
            rw [getD_set_self _ _ _ _ hlt, hInv.2 escrowId hlt]
            simp only [expectedCustody]
            rw [hstate]
            simp
          · rw [getD_set_ne _ _ _ hne]
            exact hInv.2 i hi'
      | resolveDispute caller escrowId favorBorrower xfer =>
        cases favorBorrower with
        | true =>
          obtain ⟨-, hlt, hstate, hs, -⟩ := resolveDispute_borrower_ok_inv hstep
          subst hs
          constructor
          · show (s.custody.set escrowId 0).length = (s.escrows.set _ _).length
            simp [hInv.1]
          · intro i hi
            show (s.custody.set escrowId 0).getD i 0 =
              expectedCustody ((s.escrows.set escrowId _).getD i default)
            have hi' : i < s.escrows.length := by simpa using hi
            rcases eq_or_ne escrowId i with heq | hne
            · subst heq
              rw [getD_set_self _ _ _ _ (by rw [hInv.1]; exact hlt),
                getD_set_self _ _ _ _ hlt]
              simp [expectedCustody]
            · rw [getD_set_ne _ _ _ hne, getD_set_ne _ _ _ hne]
              exact hInv.2 i hi'
        | false =>
          obtain ⟨-, hlt, hstate, hs, -⟩ := resolveDispute_lender_ok_inv hstep
          subst hs
          constructor
          · show (s.custody.set escrowId 0).length = (s.escrows.set _ _).length
            simp [hInv.1]
          · intro i hi
            show (s.custody.set escrowId 0).getD i 0 =
              expectedCustody ((s.escrows.set escrowId _).getD i default)
            have hi' : i < s.escrows.length := by simpa using hi
            rcases eq_or_ne escrowId i with heq | hne
            · subst heq
              rw [getD_set_self _ _ _ _ (by rw [hInv.1]; exact hlt),
                getD_set_self _ _ _ _ hlt]
              simp [expectedCustody]
            · rw [getD_set_ne _ _ _ hne, getD_set_ne _ _ _ hne]
              exact hInv.2 i hi'
      | cancelEscrow caller escrowId =>
        obtain ⟨hlt, -, hstate, hs, -⟩ := cancelEscrow_ok_inv hstep
        subst hs
        constructor
        · show s.custody.length = (s.escrows.set _ _).length
          simp [hInv.1]
        · intro i hi
          show s.custody.getD i 0 =
            expectedCustody ((s.escrows.set escrowId _).getD i default)
          have hi' : i < s.escrows.length := by simpa using hi
          rcases eq_or_ne escrowId i with heq | hne
          · subst heq
            rw [getD_set_self _ _ _ _ hlt, hInv.2 escrowId hlt]
            simp only [expectedCustody]
            rw [hstate]
            simp
          · rw [getD_set_ne _ _ _ hne]
            exact hInv.2 i hi'
      | getEscrowView escrowId =>
        obtain ⟨hs, -⟩ := view_ok_inv (Or.inl hstep)
        subst hs; exact hInv
      | getUserEscrowsView user =>
        obtain ⟨hs, -⟩ := view_ok_inv (Or.inr hstep)
        subst hs; exact hInv
      | withdrawFees caller dst xfer =>
        obtain ⟨-, -, hs, -⟩ := withdrawFees_ok_inv hstep
        subst hs; exact ⟨hInv.1, hInv.2⟩
      | updatePlatformFee caller newFee =>
        obtain ⟨-, -, hs, -⟩ := updatePlatformFee_ok_inv hstep
        subst hs; exact ⟨hInv.1, hInv.2⟩
      | pause caller =>
        obtain ⟨-, -, hs, -⟩ := pauseOp_ok_inv hstep
        subst hs; exact ⟨hInv.1, hInv.2⟩
      | unpause caller =>
        obtain ⟨-, -, hs, -⟩ := unpauseOp_ok_inv hstep
        subst hs; exact ⟨hInv.1, hInv.2⟩
      | emergencyWithdraw caller xfer =>
        simp [isEmergencyWithdraw] at hew

/-- Witness for the amended C1: the invariant holds in the fresh contract
and is preserved at the concrete `raiseDispute` step on the active
scenario (a non-`emergencyWithdraw` operation). -/
theorem custody_invariant_witness :
    Inv (initialLedger 1) ∧
    Inv (applyOp vAll demoActive (.raiseDispute 2 86400 0 "broken")) :=
  ⟨custody_invariant.1 1,
   custody_invariant.2 vAll demoActive (.raiseDispute 2 86400 0 "broken")
     (by decide) (by decide)⟩

/-- The transition graph of the contract's state machine:
`Created → Deposited → Active → (Completed | Disputed)`;
`Disputed → (Refunded | Completed)`; `Created → Cancelled`. -/
def allowedEdge : EscrowState → EscrowState → Bool
  | .Created, .Deposited => true
  | .Deposited, .Active => true
  | .Active, .Completed => true
  | .Active, .Disputed => true
  | .Disputed, .Refunded => true
  | .Disputed, .Completed => true
  | .Created, .Cancelled => true
  | _, _ => false

/-- The terminal states. -/
def isTerminal : EscrowState → Bool
  | .Completed => true
  | .Refunded => true
  | .Cancelled => true
  | _ => false

/-- Every transaction either leaves an agreement untouched or moves its
state along one allowed edge, starting from a non-terminal state. -/
theorem step_state_edge (v : Nat → Bool) (s : Ledger) (op : Op) (i : Nat)
    (hi : i < s.escrows.length) :
    (applyOp v s op).escrows.getD i default = s.escrows.getD i default ∨
    (allowedEdge (s.escrows.getD i default).state
       ((applyOp v s op).escrows.getD i default).state = true ∧
     isTerminal (s.escrows.getD i default).state = false) := by
  cases hstep : stepOp v s op with
  | error e => rw [applyOp_of_error hstep]; exact Or.inl rfl
  | ok p =>
    obtain ⟨s', out⟩ := p
    rw [applyOp_of_ok hstep]
    cases op with
    | createEscrow caller now lender ra sd du desc =>
      obtain ⟨-, -, -, -, -, -, -, -, hs, -⟩ := createEscrow_ok_inv hstep
      subst hs
      left
      show (s.escrows ++ [_]).getD i default = s.escrows.getD i default
      exact List.getD_append _ _ _ _ hi
    | deposit caller value escrowId =>
      obtain ⟨hlt, -, hstate, -, hs, -⟩ := deposit_ok_inv hstep
      subst hs
      rcases eq_or_ne escrowId i with heq | hne
      · subst heq
        right
        show allowedEdge (s.escrows.getD escrowId default).state
          ((s.escrows.set escrowId _).getD escrowId default).state = true ∧ _
        rw [getD_set_self _ _ _ _ hlt, hstate]
        exact ⟨rfl, rfl⟩
      · left
        show (s.escrows.set escrowId _).getD i default =
          s.escrows.getD i default
        exact getD_set_ne _ _ _ hne
    | activateRental caller escrowId =>
      obtain ⟨hlt, -, hstate, hs, -⟩ := activateRental_ok_inv hstep
      subst hs
      rcases eq_or_ne escrowId i with heq | hne
      · subst heq
        right
        show allowedEdge (s.escrows.getD escrowId default).state
          ((s.escrows.set escrowId _).getD escrowId default).state = true ∧ _
        rw [getD_set_self _ _ _ _ hlt, hstate]
        exact ⟨rfl, rfl⟩
      · left
        show (s.escrows.set escrowId _).getD i default =
          s.escrows.getD i default
        exact getD_set_ne _ _ _ hne
    | releaseToLender caller now escrowId xfer =>
      obtain ⟨hlt, -, hstate, -, hs, -⟩ := releaseToLender_ok_inv hstep
      subst hs
      rcases eq_or_ne escrowId i with heq | hne
      · subst heq
        right
        show allowedEdge (s.escrows.getD escrowId default).state
          ((s.escrows.set escrowId _).getD escrowId default).state = true ∧ _
        rw [getD_set_self _ _ _ _ hlt, hstate]
        exact ⟨rfl, rfl⟩
      · left
        show (s.escrows.set escrowId _).getD i default =
          s.escrows.getD i default
        exact getD_set_ne _ _ _ hne
    | raiseDispute caller now escrowId reason =>
      obtain ⟨hlt, -, hstate, -, hs, -⟩ :=
        @raiseDispute_ok_inv s caller now escrowId reason s' out hstep
      subst hs
      rcases eq_or_ne escrowId i with heq | hne
      · subst heq
        right
        show allowedEdge (s.escrows.getD escrowId default).state
          ((s.escrows.set escrowId _).getD escrowId default).state = true ∧ _
        rw [getD_set_self _ _ _ _ hlt, hstate]
        exact ⟨rfl, rfl⟩
      · left
        show (s.escrows.set escrowId _).getD i default =
          s.escrows.getD i default
        exact getD_set_ne _ _ _ hne
    | resolveDispute caller escrowId favorBorrower xfer =>
      cases favorBorrower with
      | true =>
        obtain ⟨-, hlt, hstate, hs, -⟩ := resolveDispute_borrower_ok_inv hstep
        subst hs
        rcases eq_or_ne escrowId i with heq | hne
        · subst heq
          right
          show allowedEdge (s.escrows.getD escrowId default).state
            ((s.escrows.set escrowId _).getD escrowId default).state = true ∧ _
          rw [getD_set_self _ _ _ _ hlt, hstate]
          exact ⟨rfl, rfl⟩
        · left
          show (s.escrows.set escrowId _).getD i default =
            s.escrows.getD i default
          exact getD_set_ne _ _ _ hne
      | false =>
        obtain ⟨-, hlt, hstate, hs, -⟩ := resolveDispute_lender_ok_inv hstep
        subst hs
        rcases eq_or_ne escrowId i with heq | hne
        · subst heq
          right
          show allowedEdge (s.escrows.getD escrowId default).state
            ((s.escrows.set escrowId _).getD escrowId default).state = true ∧ _
          rw [getD_set_self _ _ _ _ hlt, hstate]
          exact ⟨rfl, rfl⟩
        · left
          show (s.escrows.set escrowId _).getD i default =
            s.escrows.getD i default
          exact getD_set_ne _ _ _ hne
    | cancelEscrow caller escrowId =>
      obtain ⟨hlt, -, hstate, hs, -⟩ := cancelEscrow_ok_inv hstep
      subst hs
      rcases eq_or_ne escrowId i with heq | hne
      · subst heq
        right
        show allowedEdge (s.escrows.getD escrowId default).state
          ((s.escrows.set escrowId _).getD escrowId default).state = true ∧ _
        rw [getD_set_self _ _ _ _ hlt, hstate]
        exact ⟨rfl, rfl⟩
      · left
        show (s.escrows.set escrowId _).getD i default =
          s.escrows.getD i default
        exact getD_set_ne _ _ _ hne
    | getEscrowView escrowId =>
      obtain ⟨hs, -⟩ := view_ok_inv (Or.inl hstep)
      subst hs; exact Or.inl rfl
    | getUserEscrowsView user =>
      obtain ⟨hs, -⟩ := view_ok_inv (Or.inr hstep)
      subst hs; exact Or.inl rfl
    | withdrawFees caller dst xfer =>
      obtain ⟨-, -, hs, -⟩ := withdrawFees_ok_inv hstep
      subst hs; exact Or.inl rfl
    | updatePlatformFee caller newFee =>
      obtain ⟨-, -, hs, -⟩ := updatePlatformFee_ok_inv hstep
      subst hs; exact Or.inl rfl
    | pause caller =>
      obtain ⟨-, -, hs, -⟩ := pauseOp_ok_inv hstep
      subst hs; exact Or.inl rfl
    | unpause caller =>
      obtain ⟨-, -, hs, -⟩ := unpauseOp_ok_inv hstep
      subst hs; exact Or.inl rfl
    | emergencyWithdraw caller xfer =>
      obtain ⟨-, -, hs, -⟩ := emergencyWithdraw_ok_inv hstep
      subst hs; exact Or.inl rfl

/-- The concrete scenario after the lender releases the rental: the
agreement reaches the terminal state `Completed`. -/
def demoReleased : Ledger :=
  applyOps vAll demoActive [.releaseToLender 3 86400 0 allOk]

/-- Claim C3: every state change follows an edge of the graph
`Created→Deposited→Active→(Completed|Disputed)`,
`Disputed→(Refunded|Completed)`, `Created→Cancelled` (no skipped or
reverse transitions, and only from non-terminal states); an agreement in a
terminal state (`Completed`, `Refunded`, `Cancelled`) is never mutated by
any operation; and after a successful `releaseToLender` a second
`releaseToLender` by the lender on the same agreement fails with
`InvalidEscrowState`. -/
theorem state_machine_spec :
    (∀ (v : Nat → Bool) (s : Ledger) (op : Op) (i : Nat),
      i < s.escrows.length →
      (applyOp v s op).escrows.getD i default = s.escrows.getD i default ∨
      (allowedEdge (s.escrows.getD i default).state
         ((applyOp v s op).escrows.getD i default).state = true ∧
       isTerminal (s.escrows.getD i default).state = false)) ∧
    (∀ (v : Nat → Bool) (s : Ledger) (op : Op) (i : Nat),
      i < s.escrows.length →
      isTerminal (s.escrows.getD i default).state = true →
      (applyOp v s op).escrows.getD i default = s.escrows.getD i default) ∧
    (∀ (s : Ledger) (caller now escrowId : Nat) (xfer : Nat → Nat → Bool)
       (s' : Ledger) (out : List Transfer) (caller2 now2 : Nat)
       (xfer2 : Nat → Nat → Bool),
      releaseToLender s caller now escrowId xfer = .ok (s', out) →
      caller2 = (s'.escrows.getD escrowId default).lender →
      releaseToLender s' caller2 now2 escrowId xfer2 =
        .error .invalidEscrowState) := by
  refine ⟨step_state_edge, ?_, ?_⟩
  · intro v s op i hi hterm
    rcases step_state_edge v s op i hi with h | h
    · exact h
    · rw [hterm] at h
      exact absurd h.2 (by simp)
  · intro s caller now escrowId xfer s' out caller2 now2 xfer2 hok hc2
    obtain ⟨hlt, -, -, -, hs, -⟩ := releaseToLender_ok_inv hok
    subst hs
    have hlen : ¬ (escrowId ≥
        (s.escrows.set escrowId
          { s.escrows.getD escrowId default with
              state := .Completed }).length) := by
      rw [List.length_set]; omega
    have hget : (s.escrows.set escrowId
        { s.escrows.getD escrowId default with
            state := .Completed }).getD escrowId default =
        { s.escrows.getD escrowId default with state := .Completed } :=
      getD_set_self _ _ _ _ hlt
    have hc2' : caller2 = ((s.escrows.set escrowId
        { s.escrows.getD escrowId default with
            state := .Completed }).getD escrowId default).lender := hc2
    simp only [releaseToLender]
    rw [if_neg hlen, if_neg (not_ne_iff.mpr hc2'),
      if_pos (by rw [hget]; simp)]

/-- Witness for C3 at concrete points: the `Active → Completed` step of the
release on the concrete scenario follows an allowed edge; a `cancelEscrow`
attempt on the terminal `Completed` agreement leaves it untouched; and a
second `releaseToLender` by the lender fails with `InvalidEscrowState`. -/
theorem state_machine_spec_witness :
    ((applyOp vAll demoActive
        (.releaseToLender 3 86400 0 allOk)).escrows.getD 0 default =
      demoActive.escrows.getD 0 default ∨
     (allowedEdge (demoActive.escrows.getD 0 default).state
        ((applyOp vAll demoActive
          (.releaseToLender 3 86400 0 allOk)).escrows.getD 0 default).state
        = true ∧
      isTerminal (demoActive.escrows.getD 0 default).state = false)) ∧
    (applyOp vAll demoReleased (.cancelEscrow 2 0)).escrows.getD 0 default =
      demoReleased.escrows.getD 0 default ∧
    releaseToLender demoReleased 3 99999999 0 allOk =
      .error .invalidEscrowState := by
  refine ⟨?_, ?_, ?_⟩
  · exact state_machine_spec.1 vAll demoActive
      (.releaseToLender 3 86400 0 allOk) 0 (by decide)
  · exact state_machine_spec.2.1 vAll demoReleased (.cancelEscrow 2 0) 0
      (by decide) (by decide)
  · exact state_machine_spec.2.2 demoActive 3 86400 0 allOk demoReleased
      [(3, 975000), (2, 500000)] 3 99999999 allOk (by decide) (by decide)

end RentalEscrow
